import Mathlib

/-!
Verification development for the UrbanFlow NYC traffic / air-quality pipeline
(`urbanflow.py`).  The Python code is shallowly embedded: CSV rows become
structures of optional string fields (a missing field models a missing CSV
column), Python numbers become `Int` / `ℚ`, Python exceptions become
`Except String`, and the insertion-ordered `dict` used as the join index
becomes an insertion-ordered association list.  Python's `int(...)` and
`float(...)` string parsers are modelled on ASCII decimal literals (the
subset exercised by the data); `float` values are modelled as exact
rationals.
-/

namespace UrbanFlow

/-! ### Models of the Python string and number primitives -/

/-- Whitespace stripped by Python `str.strip()` (ASCII subset). -/
def isPySpace (c : Char) : Bool :=
  c = ' ' || c = '\t' || c = '\n' || c = '\r' || c = '\x0b' || c = '\x0c'

/-- `str.strip()` on a character list. -/
def pyStrip (cs : List Char) : List Char :=
  ((cs.dropWhile isPySpace).reverse.dropWhile isPySpace).reverse

/-- `str.lower()` (ASCII subset). -/
def pyLower (cs : List Char) : List Char :=
  cs.map Char.toLower

def isDigitChar (c : Char) : Bool := '0' ≤ c && c ≤ '9'

/-- Numeric value of a string of decimal digits. -/
def digitsVal (cs : List Char) : Nat :=
  cs.foldl (fun a c => 10 * a + (c.toNat - 48)) 0

/-- Nonempty and all decimal digits. -/
def allDigits (cs : List Char) : Bool :=
  !cs.isEmpty && cs.all isDigitChar

/-- `str.split(sep)` on a character list (single-character separator). -/
def splitOnChar (sep : Char) : List Char → List (List Char)
  | [] => [[]]
  | c :: rest =>
    match splitOnChar sep rest with
    | h :: t => if c = sep then [] :: h :: t else (c :: h) :: t
    | [] => [[c]]

/-- Python `int(s)` on a string: optional sign, decimal digits; `none`
models the `ValueError` raised on any other shape. -/
def pyParseInt? (s : String) : Option Int :=
  match pyStrip s.toList with
  | '-' :: rest => if allDigits rest then some (-(digitsVal rest : Int)) else none
  | '+' :: rest => if allDigits rest then some ((digitsVal rest : Int)) else none
  | rest => if allDigits rest then some ((digitsVal rest : Int)) else none

/-- Unsigned part of Python `float(s)`: digits with an optional decimal
point (`"12"`, `"12.5"`, `"12."`, `".5"`).  The value is the exact rational
denoted by the literal. -/
def pyParseFloatUnsigned? (cs : List Char) : Option ℚ :=
  match splitOnChar '.' cs with
  | [i] => if allDigits i then some (mkRat (digitsVal i) 1) else none
  | [i, f] =>
    if (i.all isDigitChar && f.all isDigitChar) && !(i.isEmpty && f.isEmpty) then
      some (mkRat (digitsVal i * 10 ^ f.length + digitsVal f) (10 ^ f.length))
    else none
  | _ => none

/-- Python `float(s)`: optional sign then an unsigned decimal literal;
`none` models the `ValueError` on any other shape. -/
def pyParseFloat? (s : String) : Option ℚ :=
  match pyStrip s.toList with
  | '-' :: rest => (pyParseFloatUnsigned? rest).map (fun q => -q)
  | '+' :: rest => pyParseFloatUnsigned? rest
  | rest => pyParseFloatUnsigned? rest

/-- Truncation toward zero, the behaviour of Python `int(<float>)`. -/
def ratTrunc (q : ℚ) : Int :=
  if q.num < 0 then -((q.num.natAbs / q.den : Nat) : Int) else ((q.num.natAbs / q.den : Nat) : Int)

/-- Decimal digits of a natural number (fuel-based, kernel-reducible). -/
def natToCharsAux : Nat → Nat → List Char
  | 0, _ => []
  | fuel + 1, n =>
    if n < 10 then [Char.ofNat (48 + n)]
    else natToCharsAux fuel (n / 10) ++ [Char.ofNat (48 + n % 10)]

def natToChars (n : Nat) : List Char := natToCharsAux (n + 1) n

def natStr (n : Nat) : String := ⟨natToChars n⟩

/-- Zero-pad the decimal digits of `n` to width `w`. -/
def padZeroNat (w n : Nat) : List Char :=
  List.replicate (w - (natToChars n).length) '0' ++ natToChars n

/-- Python `f"{n:0wd}"`: zero-padded to total width `w`, sign included in
the width. -/
def pyFormatInt (w : Nat) (n : Int) : List Char :=
  if n < 0 then '-' :: padZeroNat (w - 1) n.natAbs else padZeroNat w n.natAbs

/-- The `f"{year:04d}-{month:02d}-{day:02d}"` date string. -/
def fmtDate (y m d : Int) : String :=
  ⟨pyFormatInt 4 y ++ '-' :: (pyFormatInt 2 m ++ '-' :: pyFormatInt 2 d)⟩

def intStr (n : Int) : String :=
  if n < 0 then "-" ++ natStr n.natAbs else natStr n.natAbs

/-- Python `try body except Exception: handler`. -/
def pyTry {α : Type} (body : Except String α) (handler : String → Except String α) :
    Except String α :=
  match body with
  | .ok a => .ok a
  | .error e => handler e

/-! ### `CityRecord` (urbanflow.py lines 9-90) -/

structure CityRecord where
  location : String
  traffic_volume : Int
  pm25 : ℚ
  date : Option String
deriving DecidableEq

namespace CityRecord

def HIGH_TRAFFIC_THRESHOLD : Int := 1000

def POOR_AIR_PM25_THRESHOLD : ℚ := 12

def is_high_traffic (r : CityRecord) : Bool :=
  decide (HIGH_TRAFFIC_THRESHOLD ≤ r.traffic_volume)

def is_poor_air (r : CityRecord) : Bool :=
  decide (POOR_AIR_PM25_THRESHOLD ≤ r.pm25)

/-- `compute_pollution_to_traffic_ratio`: returns `0.0` when
`traffic_volume == 0`, else `pm25 / traffic_volume`. -/
def compute_pollution_to_traffic_ratio (r : CityRecord) : ℚ :=
  if r.traffic_volume = 0 then 0 else r.pm25 / (r.traffic_volume : ℚ)

end CityRecord

/-! ### `CityDataSet` state and the aggregate methods (lines 93-141) -/

structure CityDataSet where
  city_name : String
  records : List CityRecord
deriving DecidableEq

/-- `average_traffic` (lines 112-123). -/
def average_traffic (ds : CityDataSet) : ℚ :=
  if ds.records.isEmpty then 0
  else (ds.records.foldl (fun acc r => acc + (r.traffic_volume : ℚ)) 0) / (ds.records.length : ℚ)

/-- `average_air_quality` (lines 125-141): a single-key string-to-number
mapping, modelled as an association list. -/
def average_air_quality (ds : CityDataSet) : List (String × ℚ) :=
  if ds.records.isEmpty then [("pm25", 0)]
  else [("pm25", (ds.records.foldl (fun acc r => acc + r.pm25) 0) / (ds.records.length : ℚ))]

/-! ### Raw CSV rows and the join index (lines 175-249)

A row from `csv.DictReader` maps column names to strings; a missing column
is a missing key.  The join index `index = {}` keyed by
`(county.lower(), date_str)` is an insertion-ordered association list, the
embedding of a Python `dict` (Python 3.7+ preserves insertion order, and
assigning to an existing key keeps its position). -/

structure TrafficRow where
  Boro : Option String
  Yr : Option String
  M : Option String
  D : Option String
  Vol : Option String
  Volume : Option String
deriving DecidableEq

/-- An air-quality row; `pm25Concentration` is the
`Daily Mean PM2.5 Concentration` column. -/
structure AirRow where
  County : Option String
  Date : Option String
  pm25Concentration : Option String
deriving DecidableEq

abbrev JoinKey := String × String

abbrev Index := List (JoinKey × CityRecord)

/-- `key in index`. -/
def dictContains : Index → JoinKey → Bool
  | [], _ => false
  | e :: rest, k => decide (e.1 = k) || dictContains rest k

/-- `index[key]` as a total lookup. -/
def dictLookup : Index → JoinKey → Option CityRecord
  | [], _ => none
  | e :: rest, k => if e.1 = k then some e.2 else dictLookup rest k

/-- Entry-wise effect of `index[key] = v`. -/
def setEntry (k : JoinKey) (v : CityRecord) (e : JoinKey × CityRecord) :
    JoinKey × CityRecord :=
  if e.1 = k then (k, v) else e

/-- `index[key] = v`: overwrite in place if the key is present (keeping its
position), otherwise append. -/
def dictSet (idx : Index) (k : JoinKey) (v : CityRecord) : Index :=
  if dictContains idx k then idx.map (setEntry k v)
  else idx ++ [(k, v)]

/-- Entry-wise effect of `index[key].pm25 = pm`. -/
def updEntry (k : JoinKey) (pm : ℚ) (e : JoinKey × CityRecord) :
    JoinKey × CityRecord :=
  if e.1 = k then (e.1, { e.2 with pm25 := pm }) else e

/-- `index[key].pm25 = pm`: update the record at `key` in place (a no-op on
an index that does not hold `key`). -/
def dictUpdatePm25 (idx : Index) (k : JoinKey) (pm : ℚ) : Index :=
  idx.map (updEntry k pm)

def dictKeys (idx : Index) : List JoinKey := idx.map Prod.fst

/-- The index holds at most one record per key. -/
def KeysNodup (idx : Index) : Prop := (dictKeys idx).Nodup

def NYC_COUNTIES : List String :=
  ["bronx", "brooklyn", "manhattan", "queens", "staten island"]

/-! ### Exception-level field parsers -/

/-- `int(row.get(k, 0))`: the integer default parses to `0`; a present
field goes through `int(...)`, whose failure raises. -/
def pyIntOfField (v : Option String) : Except String Int :=
  match v with
  | none => .ok 0
  | some s =>
    match pyParseInt? s with
    | some n => .ok n
    | none => .error "ValueError"

/-- `int(s)` on a string already in hand. -/
def pyIntOfStr (s : String) : Except String Int :=
  match pyParseInt? s with
  | some n => .ok n
  | none => .error "ValueError"

/-- `float(row.get(k, 0.0))`: the float default is `0.0`; a present field
goes through `float(...)`, whose failure raises. -/
def pyFloatOfField (v : Option String) : Except String ℚ :=
  match v with
  | none => .ok 0
  | some s =>
    match pyParseFloat? s with
    | some q => .ok q
    | none => .error "ValueError"

/-! ### The traffic loop body (lines 190-214) -/

/-- `row.get("Boro", "").strip().lower()`. -/
def boroOf (row : TrafficRow) : String :=
  ⟨pyLower (pyStrip ((row.Boro.getD "").toList))⟩

/-- `row.get('Vol', row.get('Volume', '0')).replace(',', '')`. -/
def volString (row : TrafficRow) : String :=
  ⟨((row.Vol.getD (row.Volume.getD "0")).toList).filter (fun c => decide (c ≠ ','))⟩

/-- `int(float(traffic_str))` with the enclosing `try/except` that coerces
an unparsable volume to `0`. -/
def trafficVolOf (row : TrafficRow) : Int :=
  match pyParseFloat? (volString row) with
  | some q => ratTrunc q
  | none => 0

/-- The `try` block parsing `Yr`/`M`/`D` and building
`f"{year:04d}-{month:02d}-{day:02d}"`; any parse failure raises. -/
def trafficDateE (row : TrafficRow) : Except String String :=
  match pyIntOfField row.Yr with
  | .error e => .error e
  | .ok y =>
    match pyIntOfField row.M with
    | .error e => .error e
    | .ok m =>
      match pyIntOfField row.D with
      | .error e => .error e
      | .ok d => .ok (fmtDate y m d)

/-- One iteration of the traffic loop.  The `match` on `trafficDateE` is
the `try/except: continue` of lines 195-201; `trafficVolOf` carries its own
`try/except` (lines 204-207); `if traffic == 0: continue` is line 209. -/
def trafficStepE (idx : Index) (row : TrafficRow) : Except String Index :=
  let boro := boroOf row
  if boro ∈ NYC_COUNTIES then
    match trafficDateE row with
    | .error _ => .ok idx
    | .ok date_str =>
      let traffic := trafficVolOf row
      if traffic = 0 then .ok idx
      else .ok (dictSet idx (boro, date_str)
        { location := boro, traffic_volume := traffic, pm25 := 0, date := some date_str })
  else .ok idx

/-- The accepted traffic rows: location, canonical date, parsed volume.
`none` exactly when the loop body reaches `continue` (or falls outside the
borough allow-list). -/
def parseTrafficRow? (row : TrafficRow) : Option (String × String × Int) :=
  let boro := boroOf row
  if boro ∈ NYC_COUNTIES then
    match trafficDateE row with
    | .error _ => none
    | .ok date_str =>
      let traffic := trafficVolOf row
      if traffic = 0 then none else some (boro, date_str, traffic)
  else none

/-- Total version of the traffic loop body. -/
def trafficStep (idx : Index) (row : TrafficRow) : Index :=
  match parseTrafficRow? row with
  | none => idx
  | some (loc, date_str, traffic) =>
    dictSet idx (loc, date_str)
      { location := loc, traffic_volume := traffic, pm25 := 0, date := some date_str }

/-! ### The air-quality loop body (lines 225-245) -/

/-- `row.get('County', '').strip().lower()`. -/
def countyOf (row : AirRow) : String :=
  ⟨pyLower (pyStrip ((row.County.getD "").toList))⟩

/-- The body of the air-quality `try` block: `row['Date']` (KeyError when
missing), `m, d, y = ....split('/')` (ValueError unless exactly three
parts), `int` of each piece, the borough allow-list check, `float` of the
PM2.5 field, the `pm25 == 0` skip, and the update-if-present on the
index. -/
def airBodyE (idx : Index) (row : AirRow) : Except String Index :=
  match row.Date with
  | none => .error "KeyError"
  | some dateField =>
    match splitOnChar '/' dateField.data with
    | [m0, d0, y0] =>
      match pyIntOfStr (⟨y0⟩ : String) with
      | .error e => .error e
      | .ok y =>
        match pyIntOfStr (⟨m0⟩ : String) with
        | .error e => .error e
        | .ok mo =>
          match pyIntOfStr (⟨d0⟩ : String) with
          | .error e => .error e
          | .ok d =>
            let date_str := fmtDate y mo d
            let location := countyOf row
            if location ∈ NYC_COUNTIES then
              match pyFloatOfField row.pm25Concentration with
              | .error e => .error e
              | .ok pm =>
                if pm = 0 then .ok idx
                else
                  if dictContains idx (location, date_str) then
                    .ok (dictUpdatePm25 idx (location, date_str) pm)
                  else .ok idx
            else .ok idx
    | _ => .error "ValueError"

/-- One iteration of the air-quality loop: the whole body sits inside
`try/except Exception: continue` (lines 226-245). -/
def airStepE (idx : Index) (row : AirRow) : Except String Index :=
  pyTry (airBodyE idx row) (fun _ => .ok idx)

/-- The accepted air-quality rows: location, canonical date, parsed
nonzero PM2.5.  `none` exactly when the loop body raises (and the row is
skipped) or reaches a `continue`. -/
def parseAirRow? (row : AirRow) : Option (String × String × ℚ) :=
  match row.Date with
  | none => none
  | some dateField =>
    match splitOnChar '/' dateField.data with
    | [m0, d0, y0] =>
      match pyIntOfStr (⟨y0⟩ : String) with
      | .error _ => none
      | .ok y =>
        match pyIntOfStr (⟨m0⟩ : String) with
        | .error _ => none
        | .ok mo =>
          match pyIntOfStr (⟨d0⟩ : String) with
          | .error _ => none
          | .ok d =>
            let date_str := fmtDate y mo d
            let location := countyOf row
            if location ∈ NYC_COUNTIES then
              match pyFloatOfField row.pm25Concentration with
              | .error _ => none
              | .ok pm => if pm = 0 then none else some (location, date_str, pm)
            else none
    | _ => none

/-- Total version of the air-quality loop body. -/
def airStep (idx : Index) (row : AirRow) : Index :=
  match parseAirRow? row with
  | none => idx
  | some (loc, date_str, pm) =>
    if dictContains idx (loc, date_str) then dictUpdatePm25 idx (loc, date_str) pm
    else idx

/-- Effect of one air-quality row on a single index entry (an air-quality
row only ever touches the entry at its own key). -/
def airEntryStep (e : JoinKey × CityRecord) (row : AirRow) : JoinKey × CityRecord :=
  match parseAirRow? row with
  | none => e
  | some (loc, date_str, pm) => updEntry (loc, date_str) pm e

/-- The join keys of the accepted rows of one air-quality file. -/
def fileMatchKeys (file : List AirRow) : List JoinKey :=
  file.filterMap (fun r => (parseAirRow? r).map (fun x => (x.1, x.2.1)))

/-! ### `load_data` (lines 175-251)

File discovery and `open(...)` belong to the external collaborator; the
embedding receives the traffic row stream and the list of air-quality file
row streams. -/

/-- Fold a fallible per-row step over a stream, propagating an uncaught
exception (the embedding of the `for row in reader` loops). -/
def foldStepsE {ρ : Type} (step : Index → ρ → Except String Index) :
    Index → List ρ → Except String Index
  | idx, [] => .ok idx
  | idx, r :: rest =>
    match step idx r with
    | .error e => .error e
    | .ok idx' => foldStepsE step idx' rest

def load_data (ds : CityDataSet) (trafficRows : List TrafficRow)
    (airFiles : List (List AirRow)) : Except String CityDataSet :=
  match foldStepsE trafficStepE [] trafficRows with
  | .error e => .error e
  | .ok idx =>
    match foldStepsE (fun i file => foldStepsE airStepE i file) idx airFiles with
    | .error e => .error e
    | .ok idx2 =>
      .ok { city_name := ds.city_name,
            records := (idx2.map Prod.snd).filter
              (fun r => decide (0 < r.traffic_volume ∧ 0 < r.pm25)) }

/-- Total application of one air-quality file. -/
def applyAirFile (idx : Index) (file : List AirRow) : Index :=
  file.foldl airStep idx

/-- Total application of a list of air-quality files. -/
def applyAirFiles (idx : Index) (files : List (List AirRow)) : Index :=
  files.foldl applyAirFile idx

/-- The join index produced by a full `load_data` run. -/
def loadIndex (trafficRows : List TrafficRow) (airFiles : List (List AirRow)) : Index :=
  applyAirFiles (trafficRows.foldl trafficStep []) airFiles

/-- The final published record list (lines 248-249). -/
def loadRecords (trafficRows : List TrafficRow) (airFiles : List (List AirRow)) :
    List CityRecord :=
  ((loadIndex trafficRows airFiles).map Prod.snd).filter
    (fun r => decide (0 < r.traffic_volume ∧ 0 < r.pm25))

/-! ### `find_hotspots` (lines 278-297) -/

def find_hotspots (ds : CityDataSet) (threshold : ℚ) : List CityRecord :=
  ds.records.foldl
    (fun hotspots record =>
      if 0 < record.traffic_volume ∧ 0 < record.pm25 then
        if threshold < CityRecord.compute_pollution_to_traffic_ratio record then
          hotspots ++ [record]
        else hotspots
      else hotspots) []

/-! ### `export_summary` (lines 334-400)

The observable effects are the console lines printed and the file write
performed; the outcome of the `open/write` call is supplied by the
environment as an `Except String Unit`.  Decimal rendering of numbers
(`:.2f`, `:+.2f`, `:.6f`) is modelled on exact rationals with round-half-up
at the requested precision. -/

structure ExportEffect where
  console : List String
  fileWrite : Option (String × String)
deriving DecidableEq

/-- `f"{q:.pf}"`: fixed-point rendering with `p` decimal places. -/
def fmtFixed (p : Nat) (q : ℚ) : String :=
  let n : Int := round (q * (10 : ℚ) ^ p)
  let m := n.natAbs
  (if n < 0 then "-" else "") ++ natStr (m / 10 ^ p) ++ "." ++ ⟨padZeroNat p (m % 10 ^ p)⟩

/-- `f"{q:+.pf}"`: as `fmtFixed` but with an explicit sign for nonnegative
values. -/
def fmtSigned (p : Nat) (q : ℚ) : String :=
  if 0 ≤ q then "+" ++ fmtFixed p q else fmtFixed p q

/-- `int(record.date[:4])`: raises on a missing date (`None[:4]`) or a
non-numeric prefix. -/
def yearOfE (date : Option String) : Except String Int :=
  match date with
  | none => .error "TypeError"
  | some s =>
    match pyParseInt? (⟨s.toList.take 4⟩ : String) with
    | some y => .ok y
    | none => .error "ValueError"

/-- One yearly-aggregation entry: year, traffic volumes, PM2.5 values. -/
abbrev YearEntry := Int × List Int × List ℚ

/-- Append a record's values to its year's lists, creating the year entry
on first sight (`yearly_data` is an insertion-ordered dict). -/
def yearlyAdd (yd : List YearEntry) (y : Int) (tv : Int) (pm : ℚ) : List YearEntry :=
  if yd.any (fun e => decide (e.1 = y)) then
    yd.map (fun e => if e.1 = y then (e.1, e.2.1 ++ [tv], e.2.2 ++ [pm]) else e)
  else yd ++ [(y, [tv], [pm])]

/-- The `for record in self.records` aggregation loop (lines 349-354);
`yearOfE` may raise. -/
def buildYearlyE : List YearEntry → List CityRecord → Except String (List YearEntry)
  | yd, [] => .ok yd
  | yd, r :: rest =>
    match yearOfE r.date with
    | .error e => .error e
    | .ok y => buildYearlyE (yearlyAdd yd y r.traffic_volume r.pm25) rest

/-- One line of the yearly-averages block (lines 358-370). -/
def yearlyLine (overallT overallA : ℚ) (e : YearEntry) : String :=
  let avg_traffic := ((e.2.1.map (fun n => (n : ℚ))).sum) / (e.2.1.length : ℚ)
  let avg_pm25 := (e.2.2.sum) / (e.2.2.length : ℚ)
  intStr e.1 ++ ": Avg Traffic = " ++ fmtFixed 2 avg_traffic ++
    " (Diff " ++ fmtSigned 2 (avg_traffic - overallT) ++ "), " ++
    "Avg PM2.5 = " ++ fmtFixed 2 avg_pm25 ++
    " (Diff " ++ fmtSigned 2 (avg_pm25 - overallA) ++ ")"

/-- `d['pm25']` on the mapping returned by `average_air_quality`. -/
def pyDictGetQ (l : List (String × ℚ)) (k : String) : Except String ℚ :=
  match l.find? (fun e => decide (e.1 = k)) with
  | some e => .ok e.2
  | none => .error "KeyError"

/-- The report text assembled by `export_summary` (lines 356-390). -/
def renderReport (ds : CityDataSet) (yearly_data : List YearEntry)
    (overall_avg_air : ℚ) : String :=
  let overall_avg_traffic := average_traffic ds
  let sortedYears := List.insertionSort (fun a b => a ≤ b) (yearly_data.map Prod.fst)
  let yearly_avg_lines := sortedYears.map (fun y =>
    match yearly_data.find? (fun e => decide (e.1 = y)) with
    | some e => yearlyLine overall_avg_traffic overall_avg_air e
    | none => "")
  let hotspots := find_hotspots ds (mkRat 1 100)
  let hotspot_locations := hotspots.map (fun r =>
    r.location ++ " - Ratio: " ++
      fmtFixed 6 (CityRecord.compute_pollution_to_traffic_ratio r))
  "========================================\n" ++
  "UrbanFlow Analysis Report\n" ++
  "========================================\n" ++
  "City: " ++ ds.city_name ++ "\n" ++
  "Total Records: " ++ natStr ds.records.length ++ "\n" ++
  "Overall Average Traffic: " ++ fmtFixed 2 overall_avg_traffic ++ " vehicles/hour\n" ++
  "Overall Average PM2.5: " ++ fmtFixed 2 overall_avg_air ++ " µg/m³\n\n" ++
  "Yearly Averages and Differences:\n" ++
  String.intercalate "\n" yearly_avg_lines ++
  "\n\nHotspots:\n" ++ String.intercalate ", " hotspot_locations ++ "\n"

/-- The contents of the `try` block of `export_summary` (lines 339-397):
the empty-dataset early return, the overall averages, the yearly
aggregation (which can raise on a bad date), report rendering, and the
write (whose outcome the environment supplies). -/
def exportBody (ds : CityDataSet) (output_file : String)
    (writeResult : Except String Unit) : Except String (CityDataSet × ExportEffect) :=
  if ds.records.isEmpty then
    .ok (ds, { console := ["No records to summarize."], fileWrite := none })
  else
    match pyDictGetQ (average_air_quality ds) "pm25" with
    | .error e => .error e
    | .ok overall_avg_air =>
      match buildYearlyE [] ds.records with
      | .error e => .error e
      | .ok yearly_data =>
        match writeResult with
        | .error e => .error e
        | .ok _ =>
          .ok (ds, { console := ["Summary report successfully written to " ++ output_file],
                     fileWrite := some (output_file, renderReport ds yearly_data overall_avg_air) })

/-- `export_summary`: the whole body sits in `try/except Exception`
(lines 338-400); the handler only prints. -/
def export_summary (ds : CityDataSet) (output_file : String)
    (writeResult : Except String Unit) : Except String (CityDataSet × ExportEffect) :=
  pyTry (exportBody ds output_file writeResult)
    (fun e => .ok (ds, { console := ["Error writing summary report: " ++ e], fileWrite := none }))

/-! ### Concrete rows and states used for closed instance checks

`exTraffic`/`exAir` replay the hand test documented in the source
(lines 156-159): a Bronx traffic count of 356 on 2016-05-08 joined with a
PM2.5 reading of 12.5. -/

def exTraffic : TrafficRow :=
  { Boro := some "Bronx", Yr := some "2016", M := some "5", D := some "8",
    Vol := some "356", Volume := none }

def exTrafficQueens : TrafficRow :=
  { Boro := some "Queens", Yr := some "2016", M := some "5", D := some "9",
    Vol := some "200", Volume := none }

def exTrafficNeg : TrafficRow := { exTraffic with Vol := some "-1" }

def exTrafficZero : TrafficRow := { exTraffic with Vol := some "0" }

def exTrafficAbc : TrafficRow := { exTraffic with Vol := some "abc" }

def exTrafficBadDate : TrafficRow := { exTraffic with Yr := some "20x6" }

def exAir : AirRow :=
  { County := some "Bronx", Date := some "05/08/2016", pm25Concentration := some "12.5" }

def exAir5 : AirRow := { exAir with pm25Concentration := some "5.0" }

def exAir7 : AirRow := { exAir with pm25Concentration := some "7.0" }

def exAirQueens : AirRow :=
  { County := some "Queens", Date := some "05/09/2016", pm25Concentration := some "9.0" }

def exAirBadDate : AirRow := { exAir with Date := some "garbage" }

def exRecord : CityRecord :=
  { location := "bronx", traffic_volume := 356, pm25 := mkRat 125 10,
    date := some "2016-05-08" }

def exIndex : Index := [(("bronx", "2016-05-08"), exRecord)]

def exDS : CityDataSet := { city_name := "New York City", records := [] }

/-! ### Dictionary lemmas -/

theorem dictContains_iff (idx : Index) (k : JoinKey) :
    dictContains idx k = true ↔ k ∈ dictKeys idx := by
  induction idx with
  | nil => simp [dictContains, dictKeys]
  | cons e rest ih =>
    simp only [dictContains, dictKeys, List.map_cons, List.mem_cons,
      Bool.or_eq_true, decide_eq_true_eq]
    exact or_congr eq_comm (by simpa [dictKeys] using ih)

theorem setEntry_fst (k : JoinKey) (v : CityRecord) (e : JoinKey × CityRecord) :
    (setEntry k v e).1 = e.1 := by
  unfold setEntry
  by_cases h : e.1 = k <;> simp [h]

theorem updEntry_fst (k : JoinKey) (pm : ℚ) (e : JoinKey × CityRecord) :
    (updEntry k pm e).1 = e.1 := by
  unfold updEntry
  by_cases h : e.1 = k <;> simp [h]

theorem dictLookup_map_setEntry (idx : Index) (k : JoinKey) (v : CityRecord) :
    dictLookup (idx.map (setEntry k v)) k =
      if dictContains idx k then some v else none := by
  induction idx with
  | nil => rfl
  | cons e rest ih =>
    by_cases h : e.1 = k
    · have h1 : setEntry k v e = (k, v) := by simp [setEntry, h]
      have h2 : dictContains (e :: rest) k = true := by simp [dictContains, h]
      simp [List.map_cons, h1, h2, dictLookup]
    · have h1 : setEntry k v e = e := by simp [setEntry, h]
      have h2 : dictContains (e :: rest) k = dictContains rest k := by
        simp [dictContains, h]
      simp [List.map_cons, h1, h2, dictLookup, h, ih]

theorem dictLookup_map_setEntry_ne (idx : Index) (k k' : JoinKey) (v : CityRecord)
    (h : k' ≠ k) :
    dictLookup (idx.map (setEntry k v)) k' = dictLookup idx k' := by
  induction idx with
  | nil => simp
  | cons e rest ih =>
    by_cases he : e.1 = k
    · have h1 : setEntry k v e = (k, v) := by simp [setEntry, he]
      have h2 : ¬ e.1 = k' := by rw [he]; exact fun hkk => h hkk.symm
      simp [List.map_cons, h1, dictLookup, Ne.symm h, h2, ih]
    · have h1 : setEntry k v e = e := by simp [setEntry, he]
      by_cases he' : e.1 = k' <;> simp [List.map_cons, h1, dictLookup, he', ih]

theorem dictLookup_append_single_self (idx : Index) (k : JoinKey) (v : CityRecord)
    (h : dictContains idx k = false) :
    dictLookup (idx ++ [(k, v)]) k = some v := by
  induction idx with
  | nil => simp [dictLookup]
  | cons e rest ih =>
    simp only [dictContains, Bool.or_eq_false_iff, decide_eq_false_iff_not] at h
    simp [dictLookup, h.1, ih h.2]

theorem dictLookup_append_single_ne (idx : Index) (k k' : JoinKey) (v : CityRecord)
    (h : k' ≠ k) :
    dictLookup (idx ++ [(k, v)]) k' = dictLookup idx k' := by
  induction idx with
  | nil => simp [dictLookup, Ne.symm h]
  | cons e rest ih => by_cases he : e.1 = k' <;> simp [dictLookup, he, ih]

theorem dictLookup_dictSet_self (idx : Index) (k : JoinKey) (v : CityRecord) :
    dictLookup (dictSet idx k v) k = some v := by
  unfold dictSet
  cases hc : dictContains idx k
  · simp [dictLookup_append_single_self idx k v hc]
  · simp [dictLookup_map_setEntry, hc]

theorem dictLookup_dictSet_ne (idx : Index) (k k' : JoinKey) (v : CityRecord)
    (h : k' ≠ k) :
    dictLookup (dictSet idx k v) k' = dictLookup idx k' := by
  unfold dictSet
  cases hc : dictContains idx k <;>
    simp [dictLookup_map_setEntry_ne idx k k' v h,
      dictLookup_append_single_ne idx k k' v h]

theorem dictKeys_map_fst (f : JoinKey × CityRecord → JoinKey × CityRecord)
    (hf : ∀ e, (f e).1 = e.1) (idx : Index) :
    dictKeys (idx.map f) = dictKeys idx := by
  induction idx with
  | nil => rfl
  | cons e rest ih =>
    simp only [dictKeys, List.map_cons, hf]
    simpa [dictKeys] using ih

theorem dictKeys_map_setEntry (idx : Index) (k : JoinKey) (v : CityRecord) :
    dictKeys (idx.map (setEntry k v)) = dictKeys idx :=
  dictKeys_map_fst (setEntry k v) (setEntry_fst k v) idx

theorem dictKeys_append_single (idx : Index) (k : JoinKey) (v : CityRecord) :
    dictKeys (idx ++ [(k, v)]) = dictKeys idx ++ [k] := by
  simp [dictKeys]

theorem dictKeys_dictSet (idx : Index) (k : JoinKey) (v : CityRecord) :
    dictKeys (dictSet idx k v) =
      if dictContains idx k then dictKeys idx else dictKeys idx ++ [k] := by
  unfold dictSet
  cases hc : dictContains idx k
  · simp [hc, dictKeys_append_single]
  · simp [hc, dictKeys_map_setEntry]

theorem keysNodup_dictSet (idx : Index) (k : JoinKey) (v : CityRecord)
    (h : KeysNodup idx) : KeysNodup (dictSet idx k v) := by
  unfold KeysNodup at *
  rw [dictKeys_dictSet]
  cases hc : dictContains idx k
  · have hk : k ∉ dictKeys idx := fun hmem => by
      simp [(dictContains_iff idx k).2 hmem] at hc
    simp [List.nodup_append, h, hk]
  · simpa using h

theorem dictKeys_dictUpdatePm25 (idx : Index) (k : JoinKey) (pm : ℚ) :
    dictKeys (dictUpdatePm25 idx k pm) = dictKeys idx :=
  dictKeys_map_fst (updEntry k pm) (updEntry_fst k pm) idx

theorem keysNodup_dictUpdatePm25 (idx : Index) (k : JoinKey) (pm : ℚ)
    (h : KeysNodup idx) : KeysNodup (dictUpdatePm25 idx k pm) := by
  unfold KeysNodup at *
  rwa [dictKeys_dictUpdatePm25]

theorem dictLookup_dictUpdatePm25_self (idx : Index) (k : JoinKey) (pm : ℚ) :
    dictLookup (dictUpdatePm25 idx k pm) k =
      (dictLookup idx k).map (fun r => { r with pm25 := pm }) := by
  induction idx with
  | nil => rfl
  | cons e rest ih =>
    simp only [dictUpdatePm25, List.map_cons] at ih ⊢
    by_cases he : e.1 = k
    · simp [dictLookup, updEntry, he]
    · simp [dictLookup, updEntry, he, ih]

theorem dictLookup_dictUpdatePm25_ne (idx : Index) (k k' : JoinKey) (pm : ℚ)
    (h : k' ≠ k) :
    dictLookup (dictUpdatePm25 idx k pm) k' = dictLookup idx k' := by
  induction idx with
  | nil => rfl
  | cons e rest ih =>
    simp only [dictUpdatePm25, List.map_cons] at ih ⊢
    by_cases he' : e.1 = k'
    · have hne : ¬ e.1 = k := by rw [he']; exact h
      simp [dictLookup, updEntry, he', hne, h]
    · by_cases he : e.1 = k
      · simp [dictLookup, updEntry, he, he', Ne.symm h, ih]
      · simp [dictLookup, updEntry, he, he', ih]

theorem dictUpdatePm25_not_contains (idx : Index) (k : JoinKey) (pm : ℚ)
    (h : dictContains idx k = false) :
    dictUpdatePm25 idx k pm = idx := by
  induction idx with
  | nil => rfl
  | cons e rest ih =>
    simp only [dictContains, Bool.or_eq_false_iff, decide_eq_false_iff_not] at h
    simp only [dictUpdatePm25, List.map_cons] at ih ⊢
    simp [updEntry, h.1, ih h.2]

/-! ### Per-row steps never leak an exception -/

theorem trafficStepE_eq (idx : Index) (row : TrafficRow) :
    trafficStepE idx row = .ok (trafficStep idx row) := by
  unfold trafficStepE trafficStep parseTrafficRow?
  by_cases hb : boroOf row ∈ NYC_COUNTIES
  · simp only [hb, if_true]
    cases hd : trafficDateE row with
    | error e => simp
    | ok date_str => by_cases ht : trafficVolOf row = 0 <;> simp [ht]
  · simp [hb]

theorem airStepE_eq (idx : Index) (row : AirRow) :
    airStepE idx row = .ok (airStep idx row) := by
  unfold airStepE pyTry airBodyE airStep parseAirRow?
  cases hD : row.Date with
  | none => simp
  | some dateField =>
    cases hs : splitOnChar '/' dateField.data with
    | nil => simp [hs]
    | cons m0 t1 =>
      cases t1 with
      | nil => simp [hs]
      | cons d0 t2 =>
        cases t2 with
        | nil => simp [hs]
        | cons y0 t3 =>
          cases t3 with
          | cons w t4 => simp [hs]
          | nil =>
            cases hy : pyIntOfStr (⟨y0⟩ : String) with
            | error e => simp [hs, hy]
            | ok y =>
              cases hm : pyIntOfStr (⟨m0⟩ : String) with
              | error e => simp [hs, hy, hm]
              | ok mo =>
                cases hd : pyIntOfStr (⟨d0⟩ : String) with
                | error e => simp [hs, hy, hm, hd]
                | ok d =>
                  by_cases hc : countyOf row ∈ NYC_COUNTIES
                  · cases hp : pyFloatOfField row.pm25Concentration with
                    | error e => simp [hs, hy, hm, hd, hc, hp]
                    | ok pm =>
                      by_cases hz : pm = 0
                      · simp [hs, hy, hm, hd, hc, hp, hz]
                      · cases hct : dictContains idx (countyOf row, fmtDate y mo d) <;>
                          simp [hs, hy, hm, hd, hc, hp, hz, hct]
                  · simp [hs, hy, hm, hd, hc]

theorem foldStepsE_ok {ρ : Type} (stepE : Index → ρ → Except String Index)
    (step : Index → ρ → Index) (hstep : ∀ i r, stepE i r = .ok (step i r)) :
    ∀ (rows : List ρ) (idx : Index),
      foldStepsE stepE idx rows = .ok (rows.foldl step idx) := by
  intro rows
  induction rows with
  | nil => intro idx; rfl
  | cons r rest ih => intro idx; simp [foldStepsE, hstep, ih]

theorem load_data_eq (ds : CityDataSet) (t : List TrafficRow)
    (a : List (List AirRow)) :
    load_data ds t a = .ok ⟨ds.city_name, loadRecords t a⟩ := by
  simp only [load_data, foldStepsE_ok trafficStepE trafficStep trafficStepE_eq,
    foldStepsE_ok (fun i file => foldStepsE airStepE i file)
      (fun i file => file.foldl airStep i)
      (fun i file => foldStepsE_ok airStepE airStep airStepE_eq file i)]
  simp only [loadRecords, loadIndex, applyAirFiles, applyAirFile]
  rfl

/-! ### Entry-wise view of the air-quality phase -/

theorem not_contains_forall (idx : Index) (k : JoinKey)
    (h : dictContains idx k = false) : ∀ e ∈ idx, e.1 ≠ k := by
  induction idx with
  | nil => simp
  | cons e rest ih =>
    simp only [dictContains, Bool.or_eq_false_iff, decide_eq_false_iff_not] at h
    intro x hx
    rcases List.mem_cons.1 hx with rfl | hx
    · exact h.1
    · exact ih h.2 x hx

theorem airStep_map (idx : Index) (row : AirRow) :
    airStep idx row = idx.map (fun e => airEntryStep e row) := by
  unfold airStep airEntryStep
  cases hp : parseAirRow? row with
  | none => simp
  | some x =>
    obtain ⟨loc, date_str, pm⟩ := x
    cases hct : dictContains idx (loc, date_str) with
    | false =>
      have hid : ∀ e ∈ idx, updEntry (loc, date_str) pm e = e := fun e he => by
        simp [updEntry, not_contains_forall idx _ hct e he]
      have hmap : List.map (fun e => updEntry (loc, date_str) pm e) idx = idx := by
        rw [List.map_congr_left hid]
        exact List.map_id' idx
      simp [hct, hmap]
    | true =>
      simp only [hct]
      rfl

theorem applyAirFile_map (idx : Index) (file : List AirRow) :
    applyAirFile idx file = idx.map (fun e => file.foldl airEntryStep e) := by
  induction file generalizing idx with
  | nil => simp [applyAirFile]
  | cons r rest ih =>
    show applyAirFile (airStep idx r) rest = _
    rw [ih, airStep_map, List.map_map]
    rfl

theorem applyAirFiles_map (idx : Index) (files : List (List AirRow)) :
    applyAirFiles idx files =
      idx.map (fun e => files.foldl (fun x f => f.foldl airEntryStep x) e) := by
  induction files generalizing idx with
  | nil => simp [applyAirFiles]
  | cons f rest ih =>
    show applyAirFiles (applyAirFile idx f) rest = _
    rw [ih, applyAirFile_map, List.map_map]
    rfl

theorem airEntryStep_fst (e : JoinKey × CityRecord) (row : AirRow) :
    (airEntryStep e row).1 = e.1 := by
  unfold airEntryStep
  cases hp : parseAirRow? row with
  | none => rfl
  | some x =>
    obtain ⟨loc, date_str, pm⟩ := x
    exact updEntry_fst _ _ _

theorem entryFold_fst (file : List AirRow) (e : JoinKey × CityRecord) :
    (file.foldl airEntryStep e).1 = e.1 := by
  induction file generalizing e with
  | nil => rfl
  | cons r rest ih => rw [List.foldl_cons, ih, airEntryStep_fst]

theorem fileMatchKeys_cons_none (r : AirRow) (rest : List AirRow)
    (hp : parseAirRow? r = none) :
    fileMatchKeys (r :: rest) = fileMatchKeys rest := by
  simp [fileMatchKeys, List.filterMap_cons, hp]

theorem fileMatchKeys_cons_some (r : AirRow) (rest : List AirRow)
    (loc date_str : String) (pm : ℚ) (hp : parseAirRow? r = some (loc, date_str, pm)) :
    fileMatchKeys (r :: rest) = (loc, date_str) :: fileMatchKeys rest := by
  simp [fileMatchKeys, List.filterMap_cons, hp]

theorem entryFold_id (file : List AirRow) (e : JoinKey × CityRecord)
    (h : e.1 ∉ fileMatchKeys file) :
    file.foldl airEntryStep e = e := by
  induction file generalizing e with
  | nil => rfl
  | cons r rest ih =>
    cases hp : parseAirRow? r with
    | none =>
      have hstep : airEntryStep e r = e := by simp [airEntryStep, hp]
      have h' : e.1 ∉ fileMatchKeys rest := by
        rw [fileMatchKeys_cons_none r rest hp] at h
        exact h
      rw [List.foldl_cons, hstep, ih e h']
    | some x =>
      obtain ⟨loc, date_str, pm⟩ := x
      rw [fileMatchKeys_cons_some r rest loc date_str pm hp] at h
      have hk : ¬ e.1 = (loc, date_str) := fun he => h (by rw [he]; exact List.mem_cons_self _ _)
      have hstep : airEntryStep e r = e := by simp [airEntryStep, hp, updEntry, hk]
      have h' : e.1 ∉ fileMatchKeys rest := fun hm => h (List.mem_cons_of_mem _ hm)
      rw [List.foldl_cons, hstep, ih e h']

theorem entryFold_comm (f g : List AirRow)
    (hd : ∀ k ∈ fileMatchKeys f, k ∉ fileMatchKeys g) (e : JoinKey × CityRecord) :
    g.foldl airEntryStep (f.foldl airEntryStep e) =
      f.foldl airEntryStep (g.foldl airEntryStep e) := by
  by_cases hf : e.1 ∈ fileMatchKeys f
  · have hg : e.1 ∉ fileMatchKeys g := hd _ hf
    rw [entryFold_id g _ (by rw [entryFold_fst]; exact hg), entryFold_id g e hg]
  · rw [entryFold_id f e hf, entryFold_id f _ (by rw [entryFold_fst]; exact hf)]

/-! ### Helper lemmas for the aggregate claims -/

theorem foldl_add_q (f : CityRecord → ℚ) (l : List CityRecord) (a : ℚ) :
    l.foldl (fun acc r => acc + f r) a = a + (l.map f).sum := by
  induction l generalizing a with
  | nil => simp
  | cons r rest ih => simp [ih, add_assoc]

theorem find_hotspots_aux (t : ℚ) (l : List CityRecord) (acc : List CityRecord) :
    l.foldl
      (fun hotspots record =>
        if 0 < record.traffic_volume ∧ 0 < record.pm25 then
          if t < CityRecord.compute_pollution_to_traffic_ratio record then
            hotspots ++ [record]
          else hotspots
        else hotspots) acc =
      acc ++ l.filter
        (fun r => decide (0 < r.traffic_volume ∧ 0 < r.pm25 ∧
          t < r.pm25 / (r.traffic_volume : ℚ))) := by
  induction l generalizing acc with
  | nil => simp
  | cons r rest ih =>
    simp only [List.foldl_cons, List.filter_cons]
    by_cases h1 : 0 < r.traffic_volume ∧ 0 < r.pm25
    · have hnz : ¬ r.traffic_volume = 0 := by
        intro h0; rw [h0] at h1; exact absurd h1.1 (by norm_num)
      have hr : CityRecord.compute_pollution_to_traffic_ratio r =
          r.pm25 / (r.traffic_volume : ℚ) := by
        simp [CityRecord.compute_pollution_to_traffic_ratio, hnz]
      by_cases h2 : t < r.pm25 / (r.traffic_volume : ℚ)
      · simp [h1, h2, hr, ih, h1.1, h1.2]
      · simp [h1, h2, hr, ih]
    · have : ¬ (0 < r.traffic_volume ∧ 0 < r.pm25 ∧
          t < r.pm25 / (r.traffic_volume : ℚ)) := fun hx => h1 ⟨hx.1, hx.2.1⟩
      simp [h1, ih, this]

theorem exportBody_fst (ds : CityDataSet) (output_file : String)
    (w : Except String Unit) (v : CityDataSet × ExportEffect)
    (h : exportBody ds output_file w = .ok v) : v.1 = ds := by
  unfold exportBody at h
  split at h
  · injection h with h2
    rw [← h2]
  · split at h
    · exact Except.noConfusion h
    · split at h
      · exact Except.noConfusion h
      · split at h
        · exact Except.noConfusion h
        · injection h with h2
          rw [← h2]

/-! ### The claims -/

/-- Claim C1: after `load_data` completes, every record in the dataset's
records collection satisfies `traffic_volume > 0` and `pm25 > 0`, for every
pair of input row streams; no record failing the conjunction is exposed
outside the join step. -/
theorem claim_c1 (ds : CityDataSet) (t : List TrafficRow) (a : List (List AirRow))
    (ds' : CityDataSet) (h : load_data ds t a = .ok ds') :
    ∀ r ∈ ds'.records, 0 < r.traffic_volume ∧ 0 < r.pm25 := by
  rw [load_data_eq] at h
  injection h with h
  intro r hr
  rw [← h] at hr
  simp only [loadRecords] at hr
  exact of_decide_eq_true (List.mem_filter.1 hr).2

theorem claim_c1_witness : 0 < exRecord.traffic_volume ∧ 0 < exRecord.pm25 :=
  claim_c1 exDS [exTraffic] [[exAir]] ⟨"New York City", [exRecord]⟩
    ((load_data_eq exDS [exTraffic] [[exAir]]).trans (congrArg Except.ok (by decide)))
    exRecord (by decide)

/-- Claim C2: during the join the index holds at most one record per
(lower-cased location, date) key; each accepted traffic row installs a
fresh record with `pm25 = 0` at its key, overwriting any prior record
there and leaving every other key unchanged; each accepted air-quality row
updates the existing record's `pm25` in place iff its key is present, and
is dropped (the index is unchanged) otherwise. -/
theorem claim_c2 (idx : Index) (hnd : KeysNodup idx) :
    (∀ row loc date_str vol, parseTrafficRow? row = some (loc, date_str, vol) →
      KeysNodup (trafficStep idx row) ∧
      dictLookup (trafficStep idx row) (loc, date_str) =
        some { location := loc, traffic_volume := vol, pm25 := 0, date := some date_str } ∧
      ∀ k, k ≠ (loc, date_str) → dictLookup (trafficStep idx row) k = dictLookup idx k) ∧
    (∀ row loc date_str pm, parseAirRow? row = some (loc, date_str, pm) →
      KeysNodup (airStep idx row) ∧
      (dictContains idx (loc, date_str) = true →
        dictLookup (airStep idx row) (loc, date_str) =
          (dictLookup idx (loc, date_str)).map (fun r => { r with pm25 := pm }) ∧
        ∀ k, k ≠ (loc, date_str) → dictLookup (airStep idx row) k = dictLookup idx k) ∧
      (dictContains idx (loc, date_str) = false → airStep idx row = idx)) := by
  constructor
  · intro row loc date_str vol hp
    have hstep : trafficStep idx row =
        dictSet idx (loc, date_str)
          { location := loc, traffic_volume := vol, pm25 := 0, date := some date_str } := by
      simp [trafficStep, hp]
    rw [hstep]
    exact ⟨keysNodup_dictSet idx _ _ hnd, dictLookup_dictSet_self idx _ _,
      fun k hk => dictLookup_dictSet_ne idx (loc, date_str) k _ hk⟩
  · intro row loc date_str pm hp
    refine ⟨?_, ?_, ?_⟩
    · cases hct : dictContains idx (loc, date_str) with
      | false =>
        rw [show airStep idx row = idx from by simp [airStep, hp, hct]]
        exact hnd
      | true =>
        rw [show airStep idx row = dictUpdatePm25 idx (loc, date_str) pm from by
          simp [airStep, hp, hct]]
        exact keysNodup_dictUpdatePm25 idx _ pm hnd
    · intro hct
      rw [show airStep idx row = dictUpdatePm25 idx (loc, date_str) pm from by
        simp [airStep, hp, hct]]
      exact ⟨dictLookup_dictUpdatePm25_self idx _ pm,
        fun k hk => dictLookup_dictUpdatePm25_ne idx (loc, date_str) k pm hk⟩
    · intro hct
      simp [airStep, hp, hct]

theorem claim_c2_witness :
    KeysNodup (trafficStep exIndex exTrafficQueens) ∧
    dictLookup (airStep exIndex exAir5) ("bronx", "2016-05-08") =
      some { location := "bronx", traffic_volume := 356, pm25 := mkRat 50 10,
             date := some "2016-05-08" } := by
  have h := claim_c2 exIndex (by unfold KeysNodup; decide)
  refine ⟨(h.1 exTrafficQueens "queens" "2016-05-09" 200 (by decide)).1, ?_⟩
  have h2 := ((h.2 exAir5 "bronx" "2016-05-08" (mkRat 50 10) (by decide)).2.1 (by decide)).1
  rw [h2]
  decide

/-- Claim C3: `load_data` never raises across a row boundary — the whole
run on any pair of row streams returns a dataset rather than an error, and
a row on which parsing fails (of either stream) is skipped individually,
leaving the index unchanged. -/
theorem claim_c3 :
    (∀ (ds : CityDataSet) (t : List TrafficRow) (a : List (List AirRow)),
      ∃ ds', load_data ds t a = .ok ds') ∧
    (∀ (idx : Index) (row : TrafficRow), parseTrafficRow? row = none →
      trafficStepE idx row = .ok idx) ∧
    (∀ (idx : Index) (row : AirRow), parseAirRow? row = none →
      airStepE idx row = .ok idx) := by
  refine ⟨fun ds t a => ⟨_, load_data_eq ds t a⟩, ?_, ?_⟩
  · intro idx row hp
    rw [trafficStepE_eq]
    simp [trafficStep, hp]
  · intro idx row hp
    rw [airStepE_eq]
    simp [airStep, hp]

theorem claim_c3_witness :
    trafficStepE exIndex exTrafficBadDate = .ok exIndex ∧
    airStepE exIndex exAirBadDate = .ok exIndex :=
  ⟨claim_c3.2.1 exIndex exTrafficBadDate (by decide),
   claim_c3.2.2 exIndex exAirBadDate (by decide)⟩

/-- Claim C4: for every threshold `t` and record collection,
`find_hotspots t` returns exactly the records whose pollution-to-traffic
ratio is strictly greater than `t` (ratio = t is excluded), skipping any
record with nonpositive traffic or PM2.5 instead of dividing, and the
output preserves the input iteration order (it is a filter of the input). -/
theorem claim_c4 (ds : CityDataSet) (t : ℚ) :
    find_hotspots ds t = ds.records.filter
      (fun r => decide (0 < r.traffic_volume ∧ 0 < r.pm25 ∧
        t < r.pm25 / (r.traffic_volume : ℚ))) := by
  unfold find_hotspots
  simpa using find_hotspots_aux t ds.records []

/-- Claim C5: `average_traffic` is the arithmetic mean of `traffic_volume`
and `average_air_quality` is the single-key mapping sending `"pm25"` to the
arithmetic mean of `pm25`; both return their zero forms on an empty record
collection without error. -/
theorem claim_c5 (ds : CityDataSet) :
    average_traffic ds =
      (if ds.records = [] then 0
       else ((ds.records.map (fun r => (r.traffic_volume : ℚ))).sum / (ds.records.length : ℚ))) ∧
    average_air_quality ds =
      [("pm25",
        if ds.records = [] then 0
        else ((ds.records.map CityRecord.pm25).sum / (ds.records.length : ℚ)))] := by
  by_cases h : ds.records = [] <;>
    simp [average_traffic, average_air_quality, h, foldl_add_q]

/-- Claim C6 is falsified as stated: two air-quality files that carry
accepted rows for the same key with different PM2.5 values make the final
record set depend on file order (last file wins). -/
theorem claim_c6_counterexample :
    loadRecords [exTraffic] [[exAir5], [exAir7]] ≠
      loadRecords [exTraffic] [[exAir7], [exAir5]] := by
  decide

/-- Claim C6 (amended): joining is order-independent with respect to
multiple air-quality files provided distinct files carry accepted rows for
pairwise disjoint key sets; in general the value from the last-processed
file wins on a shared key. -/
theorem claim_c6_amended (idx : Index) (files files' : List (List AirRow))
    (hperm : files.Perm files')
    (hdisj : files.Pairwise (fun f g => ∀ k ∈ fileMatchKeys f, k ∉ fileMatchKeys g)) :
    applyAirFiles idx files = applyAirFiles idx files' := by
  rw [applyAirFiles_map, applyAirFiles_map]
  have hsym : Symmetric (fun f g : List AirRow =>
      ∀ k ∈ fileMatchKeys f, k ∉ fileMatchKeys g) := by
    intro f g hfg k hkg hkf
    exact hfg k hkf hkg
  have hall := hdisj.forall hsym
  congr 1
  funext e
  refine hperm.foldl_eq' ?_ e
  intro fx hx fy hy z
  by_cases hxy : fx = fy
  · rw [hxy]
  · exact entryFold_comm fx fy (hall hx hy hxy) z

theorem claim_c6_amended_witness :
    applyAirFiles exIndex [[exAir5], [exAirQueens]] =
      applyAirFiles exIndex [[exAirQueens], [exAir5]] :=
  claim_c6_amended exIndex [[exAir5], [exAirQueens]] [[exAirQueens], [exAir5]]
    (by decide) (by decide)

/-- Claim C7 is falsified as stated for negative volumes: a traffic row
whose volume parses to `-1` (nonpositive) is not skipped — it is inserted,
overwriting the existing record at its key. -/
theorem claim_c7_counterexample :
    parseTrafficRow? exTrafficNeg = some ("bronx", "2016-05-08", -1) ∧
    (-1 : Int) ≤ 0 ∧
    trafficStep exIndex exTrafficNeg ≠ exIndex := by
  decide

/-- Claim C7 (amended): a traffic volume that is unparsable is coerced to
`0`, and a volume equal to `0` makes the row a skip — no record is inserted
and no existing record is overwritten; strictly negative parsed volumes,
however, are inserted (they are only removed by the final filter). -/
theorem claim_c7_amended (idx : Index) (row : TrafficRow) :
    (pyParseFloat? (volString row) = none → trafficVolOf row = 0) ∧
    (trafficVolOf row = 0 → trafficStep idx row = idx) := by
  constructor
  · intro h
    simp [trafficVolOf, h]
  · intro h
    unfold trafficStep parseTrafficRow?
    by_cases hb : boroOf row ∈ NYC_COUNTIES
    · simp only [hb, if_true]
      cases hd : trafficDateE row with
      | error e => simp
      | ok d => simp [h]
    · simp [hb]

theorem claim_c7_witness :
    trafficVolOf exTrafficAbc = 0 ∧ trafficStep exIndex exTrafficZero = exIndex :=
  ⟨(claim_c7_amended exIndex exTrafficAbc).1 (by decide),
   (claim_c7_amended exIndex exTrafficZero).2 (by decide)⟩

/-- Claim C8: `compute_pollution_to_traffic_ratio` returns `0` whenever
`traffic_volume = 0`, regardless of `pm25`, and `pm25 / traffic_volume`
otherwise; the division is guarded so the operation is total. -/
theorem claim_c8 (r : CityRecord) :
    (r.traffic_volume = 0 → CityRecord.compute_pollution_to_traffic_ratio r = 0) ∧
    (r.traffic_volume ≠ 0 →
      CityRecord.compute_pollution_to_traffic_ratio r = r.pm25 / (r.traffic_volume : ℚ)) := by
  constructor <;> intro h <;> simp [CityRecord.compute_pollution_to_traffic_ratio, h]

theorem claim_c8_witness :
    CityRecord.compute_pollution_to_traffic_ratio
      { location := "x", traffic_volume := 0, pm25 := mkRat 99 1, date := none } = 0 :=
  (claim_c8 { location := "x", traffic_volume := 0, pm25 := mkRat 99 1, date := none }).1 rfl

/-- Claim C9: on a dataset with zero records, `export_summary` signals
"nothing to report" on the console and performs none of the report
rendering — no file write happens and no numeric content is produced. -/
theorem claim_c9 (ds : CityDataSet) (output_file : String) (w : Except String Unit)
    (h : ds.records = []) :
    export_summary ds output_file w =
      .ok (ds, { console := ["No records to summarize."], fileWrite := none }) := by
  unfold export_summary exportBody pyTry
  simp [h]

theorem claim_c9_witness :
    export_summary exDS "nyc_yearly_summary_report.txt" (.ok ()) =
      .ok (exDS, { console := ["No records to summarize."], fileWrite := none }) :=
  claim_c9 exDS "nyc_yearly_summary_report.txt" (.ok ()) rfl

/-- Claim C10: `export_summary` is total at its public interface — for
every dataset state, output path, and write outcome, any exception raised
during report construction or writing is caught internally, and the result
always carries the dataset unchanged. -/
theorem claim_c10 (ds : CityDataSet) (output_file : String) (w : Except String Unit) :
    ∃ eff, export_summary ds output_file w = .ok (ds, eff) := by
  unfold export_summary pyTry
  cases hb : exportBody ds output_file w with
  | error e => exact ⟨_, rfl⟩
  | ok v =>
    obtain ⟨d, eff⟩ := v
    have hv : d = ds := exportBody_fst ds output_file w (d, eff) hb
    rw [hv]
    exact ⟨eff, rfl⟩

end UrbanFlow
